import Mathlib

/-!
Verification development for a multi-database MCP server (src/app.py).

The embedded core: the routing classifier (`DatabaseAgent.detect_database`
with its keyword / table-name / column-name phases and
`DatabaseAgent.search_in_columns`), the schema cache
(`DatabaseAgent.get_all_tables`), the template dispatcher
(`MultiDatabaseMCP.natural_to_sql` and the per-database query catalogs),
the cross-database result merge (`MultiDatabaseMCP._analyze_cross_db_results`),
the unified search (`MultiDatabaseMCP.unified_search` and
`MultiDatabaseMCP._generate_search_query`).

Database lookups performed through mysql-connector are modelled by explicit
environments: a classifier environment supplies, per database, connectivity,
the table list returned by `get_all_tables`, and the DESCRIBE column names;
an execution environment supplies the rows-or-failure outcome of running one
SQL statement.  Python machine floats are modelled by rationals.
-/

set_option maxRecDepth 8000

/-- The three configured databases, in `DB_CONFIGS` insertion order. -/
inductive DB where
  | school_erp
  | chinook
  | sakila
deriving DecidableEq

/-- `DB_CONFIGS.keys()` iteration order. -/
def DB.all : List DB := [.school_erp, .chinook, .sakila]

/-- The configuration key of each database. -/
def DB.name : DB → String
  | .school_erp => "school_erp"
  | .chinook => "chinook"
  | .sakila => "sakila"

/-- `DB_CONFIGS[db]["description"]`. -/
def DB.description : DB → String
  | .school_erp => "School Management System - students, teachers, classes, fees, attendance, marks, library"
  | .chinook => "Music Store - albums, artists, tracks, customers, invoices, playlists"
  | .sakila => "Movie Rental - films, actors, customers, rentals, inventory, categories"

/-- `DatabaseAgent.database_keywords`, verbatim (including the duplicated
`actor` entry of the sakila list). -/
def database_keywords : DB → List String
  | .school_erp =>
      ["student", "teacher", "class", "school", "fee", "payment", "attendance",
       "marks", "exam", "grade", "enrollment", "library", "book issue", "staff",
       "subject", "assignment", "announcement", "academic", "session", "roll",
       "admission", "principal", "hostel", "uniform"]
  | .chinook =>
      ["music", "album", "artist", "track", "song", "playlist", "genre",
       "customer", "invoice", "purchase", "employee", "media", "composer",
       "billing", "sale"]
  | .sakila =>
      ["film", "movie", "actor", "rental", "dvd", "store", "inventory",
       "category", "language", "address", "city", "country", "payment",
       "cinema", "video", "actor", "actress"]

/-- `needle` occurs contiguously in `hay` (any position, the empty list
everywhere). -/
def isSub : List Char → List Char → Bool
  | needle, [] => needle.isEmpty
  | needle, c :: rest => needle.isPrefixOf (c :: rest) || isSub needle rest

/-- Python's `needle in hay` substring test. -/
def substrOf (needle hay : String) : Bool :=
  isSub needle.toList hay.toList

/-- Python's `str.lower()` (ASCII case folding, as in every string this
program lowercases). -/
def pyLower (s : String) : String :=
  ⟨s.toList.map Char.toLower⟩

/-- One step bound by fuel: Python `str.replace(pat, "")`, removing
non-overlapping occurrences of `pat` left to right.  Fuel is the length of the
remaining text, which bounds the number of steps. -/
def removeAllAux (pat : List Char) : Nat → List Char → List Char
  | 0, s => s
  | _ + 1, [] => []
  | fuel + 1, c :: rest =>
      if pat.isPrefixOf (c :: rest) then
        removeAllAux pat fuel (List.drop (pat.length - 1) rest)
      else
        c :: removeAllAux pat fuel rest

/-- Python `s.replace(pat, "")` for a nonempty pattern. -/
def removeAll (pat s : String) : String :=
  if pat.isEmpty then s
  else ⟨removeAllAux pat.toList s.toList.length s.toList⟩

/-- `col['Field'].lower().replace('_id', '').replace('_name', '')` from
`DatabaseAgent.search_in_columns`. -/
def cleanCol (c : String) : String :=
  removeAll "_name" (removeAll "_id" (pyLower c))

/-- Per-database classification scores (`scores` dict of `detect_database`),
one field per configured database. -/
structure Scores where
  school_erp : Nat
  chinook : Nat
  sakila : Nat
deriving DecidableEq

/-- Dictionary access `scores[db]`. -/
def Scores.get (s : Scores) : DB → Nat
  | .school_erp => s.school_erp
  | .chinook => s.chinook
  | .sakila => s.sakila

/-- `max(scores.values())`. -/
def Scores.maxScore (s : Scores) : Nat :=
  Nat.max s.school_erp (Nat.max s.chinook s.sakila)

/-- Per-database matched-marker lists (`matched_keywords` dict). -/
structure Matched where
  school_erp : List String
  chinook : List String
  sakila : List String
deriving DecidableEq

/-- Dictionary access `matched_keywords[db]`. -/
def Matched.get (m : Matched) : DB → List String
  | .school_erp => m.school_erp
  | .chinook => m.chinook
  | .sakila => m.sakila

/-- Environment for the classifier: per database, whether its connection is
alive, the table list that `get_all_tables` yields (already lowercased, empty
on failure), and the DESCRIBE `Field` names of each table. -/
structure Env where
  connected : DB → Bool
  tables : DB → List String
  columns : DB → String → List String

/-- Phase 1 of `detect_database`: the keywords of `db` found as substrings of
the lowercased question, in catalog order. -/
def kwMatches (ql : String) (db : DB) : List String :=
  (database_keywords db).filter (fun k => substrOf k ql)

/-- Phase 1 scores: one point per matched keyword. -/
def phase1Scores (ql : String) : Scores :=
  ⟨(kwMatches ql .school_erp).length,
   (kwMatches ql .chinook).length,
   (kwMatches ql .sakila).length⟩

/-- Phase 1 matched markers. -/
def phase1Matched (ql : String) : Matched :=
  ⟨kwMatches ql .school_erp, kwMatches ql .chinook, kwMatches ql .sakila⟩

/-- Phase 2 of `detect_database`: the tables of `db` found as substrings of
the lowercased question. -/
def tableMatchList (env : Env) (ql : String) (db : DB) : List String :=
  (env.tables db).filter (fun t => substrOf t ql)

/-- Adding the table-name phase contribution: 5 points per matched table. -/
def withTableScores (env : Env) (ql : String) (s : Scores) : Scores :=
  ⟨s.school_erp + 5 * (tableMatchList env ql .school_erp).length,
   s.chinook + 5 * (tableMatchList env ql .chinook).length,
   s.sakila + 5 * (tableMatchList env ql .sakila).length⟩

/-- Scores after the table-name phase: the phase runs only when the keyword
phase produced an all-zero score vector. -/
def phase2Scores (env : Env) (ql : String) : Scores :=
  if (phase1Scores ql).maxScore = 0 then
    withTableScores env ql (phase1Scores ql)
  else phase1Scores ql

/-- `table:<name>` markers of the table-name phase. -/
def tableMarkers (env : Env) (ql : String) (db : DB) : List String :=
  (tableMatchList env ql db).map (fun t => "table:" ++ t)

/-- Matched markers after the table-name phase. -/
def phase2Matched (env : Env) (ql : String) : Matched :=
  if (phase1Scores ql).maxScore = 0 then
    ⟨(phase1Matched ql).school_erp ++ tableMarkers env ql .school_erp,
     (phase1Matched ql).chinook ++ tableMarkers env ql .chinook,
     (phase1Matched ql).sakila ++ tableMarkers env ql .sakila⟩
  else phase1Matched ql

/-- The hit test of `search_in_columns`: the normalized column name occurs in
the question and is longer than 3 characters. -/
def columnHit (ql c : String) : Bool :=
  substrOf (cleanCol c) ql && decide (3 < (cleanCol c).length)

/-- `DatabaseAgent.search_in_columns` for one database: skipped when not
connected; otherwise iterates the first 10 tables, scoring 1 per column hit,
accumulating exactly like the Python nested loops. -/
def search_in_columns_db (env : Env) (ql : String) (db : DB) : Nat :=
  if env.connected db then
    ((env.tables db).take 10).foldl
      (fun acc t =>
        (env.columns db t).foldl (fun a c => if columnHit ql c then a + 1 else a) acc)
      0
  else 0

/-- The score dict returned by `search_in_columns`. -/
def search_in_columns (env : Env) (ql : String) : Scores :=
  ⟨search_in_columns_db env ql .school_erp,
   search_in_columns_db env ql .chinook,
   search_in_columns_db env ql .sakila⟩

/-- Adding the column-name phase contribution. -/
def withColumnScores (env : Env) (ql : String) (s : Scores) : Scores :=
  ⟨s.school_erp + search_in_columns_db env ql .school_erp,
   s.chinook + search_in_columns_db env ql .chinook,
   s.sakila + search_in_columns_db env ql .sakila⟩

/-- Final score vector of `detect_database`: the column phase runs only when
the table phase still left an all-zero vector. -/
def finalScores (env : Env) (ql : String) : Scores :=
  if (phase2Scores env ql).maxScore = 0 then
    withColumnScores env ql (phase2Scores env ql)
  else phase2Scores env ql

/-- `column_matches:<score>` marker, appended only for a positive score. -/
def columnMarkers (env : Env) (ql : String) (db : DB) : List String :=
  if 0 < search_in_columns_db env ql db then
    ["column_matches:" ++ toString (search_in_columns_db env ql db)]
  else []

/-- Matched markers after all phases. -/
def finalMatched (env : Env) (ql : String) : Matched :=
  if (phase2Scores env ql).maxScore = 0 then
    ⟨(phase2Matched env ql).school_erp ++ columnMarkers env ql .school_erp,
     (phase2Matched env ql).chinook ++ columnMarkers env ql .chinook,
     (phase2Matched env ql).sakila ++ columnMarkers env ql .sakila⟩
  else phase2Matched env ql

/-- Python's binary `min` on rationals, written with an explicit test so that
it evaluates by kernel reduction. -/
def ratMin (a b : ℚ) : ℚ :=
  if a ≤ b then a else b

/-- `min(100, (max_score / (max_score + 1)) * 100)` over rationals. -/
def confFormula (m : Nat) : ℚ :=
  ratMin 100 ((m : ℚ) / ((m : ℚ) + 1) * 100)

/-- The `suggestion` of the unresolved outcome: every configured database with
its description. -/
def clarifySuggestion : String :=
  "Please specify or ask about: " ++
    String.intercalate ", " (DB.all.map (fun db => db.name ++ " (" ++ db.description ++ ")"))

/-- The `reasoning` of the ambiguous outcome. -/
def ambReasoning (top : List DB) : String :=
  "Ambiguous query matches multiple databases: " ++
    String.intercalate ", " (top.map DB.name)

/-- The `suggestion` of the ambiguous outcome. -/
def ambSuggestion (top : List DB) : String :=
  "Please clarify if you want data from: " ++
    String.intercalate ", " (top.map (fun db => db.name ++ " (" ++ db.description ++ ")"))

/-- The `reasoning` of the resolved outcome: first 5 matched markers. -/
def resReasoning (markers : List String) : String :=
  "Matched keywords/patterns: " ++ String.intercalate ", " (markers.take 5)

/-- The three possible return dicts of `detect_database`. -/
inductive DetectResult where
  | unresolved (reasoning suggestion : String) (scores : Scores)
  | ambiguous (confidence : ℚ) (reasoning suggestion : String) (scores : Scores)
      (tied_databases : List DB)
  | resolved (database : DB) (confidence : ℚ) (reasoning : String) (scores : Scores)
      (all_matches : Matched)
deriving DecidableEq

/-- The tied top-score databases, in `DB_CONFIGS` order
(`[db for db, score in scores.items() if score == max_score]`). -/
def topDatabases (s : Scores) : List DB :=
  DB.all.filter (fun db => s.get db == s.maxScore)

/-- `DatabaseAgent.detect_database`. -/
def detect_database (env : Env) (question : String) : DetectResult :=
  let ql := pyLower question
  let s := finalScores env ql
  if s.maxScore = 0 then
    .unresolved "Could not determine database from question" clarifySuggestion s
  else
    let top := topDatabases s
    if 1 < top.length then
      .ambiguous 50 (ambReasoning top) (ambSuggestion top) s top
    else
      -- Python indexes `top_databases[0]`; the list is nonempty whenever the
      -- maximum is attained, so the default is never used.
      let d := top.headD .school_erp
      .resolved d (confFormula s.maxScore) (resReasoning ((finalMatched env ql).get d)) s
        (finalMatched env ql)

/-- An environment with no live connection and no schema data. -/
def envTriv : Env :=
  ⟨fun _ => false, fun _ => [], fun _ _ => []⟩

example : detect_database envTriv "student" =
    .resolved .school_erp (confFormula 1) "Matched keywords/patterns: student" ⟨1, 0, 0⟩
      ⟨["student"], [], []⟩ := rfl

example : detect_database envTriv "zzz" =
    .unresolved "Could not determine database from question" clarifySuggestion ⟨0, 0, 0⟩ := rfl

/-- `suf` is a suffix of `s`. -/
def endsWithStr (suf s : String) : Bool :=
  suf.toList.reverse.isPrefixOf s.toList.reverse

/-- Remove the last `n` characters. -/
def dropRightStr (n : Nat) (s : String) : String :=
  ⟨s.toList.take (s.toList.length - n)⟩

/-- The column normalization as the spec sentence states it: strip a trailing
`_id` or `_name` suffix (the lowercased name is otherwise unchanged). -/
def cleanColTrailing (c : String) : String :=
  let lc := pyLower c
  if endsWithStr "_id" lc then dropRightStr 3 lc
  else if endsWithStr "_name" lc then dropRightStr 5 lc
  else lc

/-- The column-name phase as the claim words it (spec reading, to be compared
with `search_in_columns_db`): first 10 tables, 1 point per column whose
trailing-suffix-stripped name is longer than 3 characters and occurs in the
question. -/
def search_in_columns_claimed (env : Env) (ql : String) (db : DB) : Nat :=
  if env.connected db then
    (((env.tables db).take 10).map (fun t =>
      (env.columns db t).countP (fun c =>
        substrOf (cleanColTrailing c) ql && decide (3 < (cleanColTrailing c).length)))).sum
  else 0

/-- The column-name phase with the normalization the code actually performs
(every occurrence of `_id` and then `_name` removed), otherwise phrased like
the spec sentence: first 10 tables, 1 point per column whose normalized name
is longer than 3 characters and occurs in the question. -/
def search_in_columns_spec (env : Env) (ql : String) (db : DB) : Nat :=
  if env.connected db then
    (((env.tables db).take 10).map (fun t =>
      (env.columns db t).countP (fun c =>
        substrOf (cleanCol c) ql && decide (3 < (cleanCol c).length)))).sum
  else 0

/-- A schema exhibiting the difference between the code's normalization and
the spec's trailing-suffix reading: a single school_erp table with one column
`store_id_backup`. -/
def envC4 : Env :=
  ⟨fun db => db == .school_erp,
   fun db => if db == .school_erp then ["tbl"] else [],
   fun db _ => if db == .school_erp then ["store_id_backup"] else []⟩

/-! ## Template dispatcher (`MultiDatabaseMCP.natural_to_sql`) -/

def sqlSchoolStudentCountByClass : String :=
  "SELECT cs.class_number, cs.section,\n       COUNT(DISTINCT se.student_id) as student_count\nFROM sms_student_enrollments se\nJOIN sms_class_section cs ON se.class_section_id = cs.class_section_id\nWHERE se.status = \x27active\x27\nGROUP BY cs.class_number, cs.section\nORDER BY cs.class_number, cs.section"

def sqlSchoolStudentTotal : String :=
  "SELECT COUNT(*) as total_students FROM sms_students"

def sqlSchoolStudentList : String :=
  "SELECT s.admission_no, s.name, s.gender, cs.class_number, cs.section, se.roll_no\nFROM sms_students s\nJOIN sms_student_enrollments se ON s.id = se.student_id\nJOIN sms_class_section cs ON se.class_section_id = cs.class_section_id\nWHERE se.status = \x27active\x27\nORDER BY cs.class_number, cs.section, se.roll_no\nLIMIT 50"

def sqlSchoolTeachers : String :=
  "SELECT staff_id, CONCAT(first_name, \x27 \x27, last_name) as name,\n       role, department, phone, email\nFROM sms_teachers\nWHERE status = \x27active\x27\nORDER BY first_name\nLIMIT 50"

def sqlSchoolPendingFees : String :=
  "SELECT s.admission_no, s.name, cs.class_number, cs.section,\n       fs.month, fs.total_amount\nFROM sms_students s\nJOIN sms_student_enrollments se ON s.id = se.student_id\nJOIN sms_class_section cs ON se.class_section_id = cs.class_section_id\nJOIN fee_structures fs ON cs.class_section_id = fs.class_section_id\nLEFT JOIN fee_payments fp ON s.id = fp.student_id AND fs.month = fp.month\nWHERE fp.id IS NULL AND se.status = \x27active\x27\nLIMIT 50"

def sqlSchoolHelp : String :=
  "SELECT \x27school_erp School Database. Ask about: students, teachers, classes,\nfees, attendance, marks, library\x27 as info"

def sqlChinookAlbumArtist : String :=
  "SELECT ar.Name as Artist, al.Title as Album\nFROM album al\nJOIN artist ar ON al.ArtistId = ar.ArtistId\nORDER BY ar.Name, al.Title\nLIMIT 50"

def sqlChinookAlbums : String :=
  "SELECT AlbumId, Title\nFROM album\nORDER BY Title\nLIMIT 50"

def sqlChinookArtists : String :=
  "SELECT ArtistId, Name\nFROM artist\nORDER BY Name\nLIMIT 50"

def sqlChinookTracks : String :=
  "SELECT t.Name as Track, al.Title as Album, ar.Name as Artist\nFROM track t\nJOIN album al ON t.AlbumId = al.AlbumId\nJOIN artist ar ON al.ArtistId = ar.ArtistId\nORDER BY t.Name\nLIMIT 50"

def sqlChinookCustomers : String :=
  "SELECT CustomerId, FirstName, LastName, Email, Country\nFROM customer\nORDER BY LastName, FirstName\nLIMIT 50"

def sqlChinookInvoices : String :=
  "SELECT i.InvoiceId, c.FirstName, c.LastName, i.InvoiceDate, i.Total\nFROM invoice i\nJOIN customer c ON i.CustomerId = c.CustomerId\nORDER BY i.InvoiceDate DESC\nLIMIT 50"

def sqlChinookPlaylists : String :=
  "SELECT PlaylistId, Name\nFROM playlist\nORDER BY Name\nLIMIT 50"

def sqlChinookHelp : String :=
  "SELECT \x27Chinook Music Store Database. Ask about: albums, artists, tracks,\ncustomers, invoices, playlists\x27 as info"

def sqlSakilaFilmActor : String :=
  "SELECT f.title, a.first_name, a.last_name\nFROM film f\nJOIN film_actor fa ON f.film_id = fa.film_id\nJOIN actor a ON fa.actor_id = a.actor_id\nORDER BY f.title\nLIMIT 50"

def sqlSakilaFilms : String :=
  "SELECT film_id, title, release_year, rating, length\nFROM film\nORDER BY title\nLIMIT 50"

def sqlSakilaActors : String :=
  "SELECT actor_id, first_name, last_name\nFROM actor\nORDER BY last_name, first_name\nLIMIT 50"

def sqlSakilaRentals : String :=
  "SELECT r.rental_id, c.first_name, c.last_name,\n       f.title, r.rental_date, r.return_date\nFROM rental r\nJOIN customer c ON r.customer_id = c.customer_id\nJOIN inventory i ON r.inventory_id = i.inventory_id\nJOIN film f ON i.film_id = f.film_id\nORDER BY r.rental_date DESC\nLIMIT 50"

def sqlSakilaCustomers : String :=
  "SELECT customer_id, first_name, last_name, email, active\nFROM customer\nORDER BY last_name, first_name\nLIMIT 50"

def sqlSakilaCategories : String :=
  "SELECT category_id, name\nFROM category\nORDER BY name"

def sqlSakilaHelp : String :=
  "SELECT \x27Sakila Movie Rental Database. Ask about: films, actors,\ncustomers, rentals, categories\x27 as info"

/-- `MultiDatabaseMCP._school_erp_queries` (takes the lowercased question). -/
def school_erp_queries (q : String) : String :=
  if substrOf "how many students" q then
    if substrOf "class" q || substrOf "section" q then sqlSchoolStudentCountByClass
    else sqlSchoolStudentTotal
  else if substrOf "list students" q || substrOf "show students" q then sqlSchoolStudentList
  else if substrOf "teacher" q then sqlSchoolTeachers
  else if substrOf "fee" q && (substrOf "pending" q || substrOf "unpaid" q) then
    sqlSchoolPendingFees
  else sqlSchoolHelp

/-- `MultiDatabaseMCP._chinook_queries`. -/
def chinook_queries (q : String) : String :=
  if substrOf "album" q then
    if substrOf "artist" q then sqlChinookAlbumArtist else sqlChinookAlbums
  else if substrOf "artist" q then sqlChinookArtists
  else if substrOf "track" q || substrOf "song" q then sqlChinookTracks
  else if substrOf "customer" q then sqlChinookCustomers
  else if substrOf "invoice" q || substrOf "sale" q then sqlChinookInvoices
  else if substrOf "playlist" q then sqlChinookPlaylists
  else sqlChinookHelp

/-- `MultiDatabaseMCP._sakila_queries`. -/
def sakila_queries (q : String) : String :=
  if substrOf "film" q || substrOf "movie" q then
    if substrOf "actor" q then sqlSakilaFilmActor else sqlSakilaFilms
  else if substrOf "actor" q then sqlSakilaActors
  else if substrOf "rental" q then sqlSakilaRentals
  else if substrOf "customer" q then sqlSakilaCustomers
  else if substrOf "category" q then sqlSakilaCategories
  else sqlSakilaHelp

/-- `MultiDatabaseMCP.natural_to_sql`: lowercases the question and dispatches
to the per-database catalog. -/
def natural_to_sql (db : DB) (question : String) : String :=
  let q := pyLower question
  match db with
  | .school_erp => school_erp_queries q
  | .chinook => chinook_queries q
  | .sakila => sakila_queries q

/-- An ordered guard/statement catalog, the `QueryTemplate` list of the spec:
each guard is a predicate over the lowercased question. -/
def QueryCatalog : Type := List ((String → Bool) × String)

/-- First matching guard wins. -/
def firstMatch : QueryCatalog → String → Option String
  | [], _ => none
  | (g, stmt) :: rest, q => if g q then some stmt else firstMatch rest q

/-- The school_erp guard catalog, in source order (the nested `if` of
`_school_erp_queries` split into two ordered guards). -/
def schoolCatalog : QueryCatalog :=
  [(fun q => substrOf "how many students" q && (substrOf "class" q || substrOf "section" q),
    sqlSchoolStudentCountByClass),
   (fun q => substrOf "how many students" q, sqlSchoolStudentTotal),
   (fun q => substrOf "list students" q || substrOf "show students" q, sqlSchoolStudentList),
   (fun q => substrOf "teacher" q, sqlSchoolTeachers),
   (fun q => substrOf "fee" q && (substrOf "pending" q || substrOf "unpaid" q),
    sqlSchoolPendingFees)]

/-- The chinook guard catalog, in source order. -/
def chinookCatalog : QueryCatalog :=
  [(fun q => substrOf "album" q && substrOf "artist" q, sqlChinookAlbumArtist),
   (fun q => substrOf "album" q, sqlChinookAlbums),
   (fun q => substrOf "artist" q, sqlChinookArtists),
   (fun q => substrOf "track" q || substrOf "song" q, sqlChinookTracks),
   (fun q => substrOf "customer" q, sqlChinookCustomers),
   (fun q => substrOf "invoice" q || substrOf "sale" q, sqlChinookInvoices),
   (fun q => substrOf "playlist" q, sqlChinookPlaylists)]

/-- The sakila guard catalog, in source order. -/
def sakilaCatalog : QueryCatalog :=
  [(fun q => (substrOf "film" q || substrOf "movie" q) && substrOf "actor" q,
    sqlSakilaFilmActor),
   (fun q => substrOf "film" q || substrOf "movie" q, sqlSakilaFilms),
   (fun q => substrOf "actor" q, sqlSakilaActors),
   (fun q => substrOf "rental" q, sqlSakilaRentals),
   (fun q => substrOf "customer" q, sqlSakilaCustomers),
   (fun q => substrOf "category" q, sqlSakilaCategories)]

/-- Catalog of each database. -/
def catalogOf : DB → QueryCatalog
  | .school_erp => schoolCatalog
  | .chinook => chinookCatalog
  | .sakila => sakilaCatalog

/-- The fixed fallback "help" statement of each database. -/
def helpStatement : DB → String
  | .school_erp => sqlSchoolHelp
  | .chinook => sqlChinookHelp
  | .sakila => sqlSakilaHelp

/-! ## Row values (`ExecutionResult` rows as field-to-value mappings) -/

/-- A cell value of a result row.  `num` covers Python `int`/`float`; `str`
covers text; `null` covers `None`. -/
inductive Value where
  | num (x : ℚ)
  | str (s : String)
  | null
deriving DecidableEq

/-- A result row: an ordered field-to-value mapping (a Python dict row from
`cursor(dictionary=True)`; keys are unique in any dict the program builds). -/
abbrev Row : Type := List (String × Value)

/-- Dict lookup `row[key]` / membership `key in row` (first binding). -/
def rowGet (row : Row) (k : String) : Option Value :=
  (row.find? (fun p => p.1 == k)).map (fun p => p.2)

/-- Python truthiness of a cell value (`if row[key]:`). -/
def Value.truthy : Value → Bool
  | .num x => decide (x ≠ 0)
  | .str s => !(s == "")
  | .null => false

/-- `isinstance(value, (int, float))`. -/
def Value.isNumeric : Value → Bool
  | .num _ => true
  | _ => false

/-- Python `float(value)` as used by the merge.  A numeric value converts to
itself.  The merge converts only truthy values, and `float` of a truthy
non-numeric value is modelled as a raised exception (Python additionally
parses digit-only strings; no statement below depends on that case, which the
`.ok` hypotheses exclude). -/
def floatOf : Value → Except String ℚ
  | .num x => .ok x
  | .str _ => .error "float() applied to a non-numeric value"
  | .null => .error "float() applied to None"

/-! ## Search compiler (`MultiDatabaseMCP._generate_search_query`,
`MultiDatabaseMCP.unified_search`) -/

/-- `search_term.replace("'", "''")`: single quotes doubled. -/
def escapeSquotes (s : String) : String :=
  ⟨(s.toList.map (fun c => if c == '\x27' then [c, c] else [c])).flatten⟩

def schoolSearchNameAll (s : String) : String :=
  "SELECT \x27Student\x27 as type, name, email, admission_no as id\nFROM sms_students\nWHERE name LIKE \x27%" ++ s ++ "%\x27\nUNION ALL\nSELECT \x27Teacher\x27 as type, CONCAT(first_name, \x27 \x27, last_name) as name,\n       email, staff_id as id\nFROM sms_teachers\nWHERE first_name LIKE \x27%" ++ s ++ "%\x27\n   OR last_name LIKE \x27%" ++ s ++ "%\x27\nLIMIT 50"

def schoolSearchEmail (s : String) : String :=
  "SELECT \x27Student\x27 as type, name, email, admission_no as id\nFROM sms_students\nWHERE email LIKE \x27%" ++ s ++ "%\x27\nUNION ALL\nSELECT \x27Teacher\x27 as type, CONCAT(first_name, \x27 \x27, last_name) as name,\n       email, staff_id as id\nFROM sms_teachers\nWHERE email LIKE \x27%" ++ s ++ "%\x27\nLIMIT 50"

def chinookSearchNameAll (s : String) : String :=
  "SELECT \x27Artist\x27 as type, Name as name, NULL as email, ArtistId as id\nFROM artist\nWHERE Name LIKE \x27%" ++ s ++ "%\x27\nUNION ALL\nSELECT \x27Customer\x27 as type, CONCAT(FirstName, \x27 \x27, LastName) as name,\n       Email as email, CustomerId as id\nFROM customer\nWHERE FirstName LIKE \x27%" ++ s ++ "%\x27\n   OR LastName LIKE \x27%" ++ s ++ "%\x27\nLIMIT 50"

def chinookSearchEmail (s : String) : String :=
  "SELECT \x27Customer\x27 as type, CONCAT(FirstName, \x27 \x27, LastName) as name,\n       Email as email, CustomerId as id\nFROM customer\nWHERE Email LIKE \x27%" ++ s ++ "%\x27\nLIMIT 50"

def chinookSearchTitle (s : String) : String :=
  "SELECT \x27Album\x27 as type, Title as name, NULL as email, AlbumId as id\nFROM album\nWHERE Title LIKE \x27%" ++ s ++ "%\x27\nUNION ALL\nSELECT \x27Track\x27 as type, Name as name, NULL as email, TrackId as id\nFROM track\nWHERE Name LIKE \x27%" ++ s ++ "%\x27\nLIMIT 50"

def sakilaSearchNameAll (s : String) : String :=
  "SELECT \x27Actor\x27 as type, CONCAT(first_name, \x27 \x27, last_name) as name,\n       NULL as email, actor_id as id\nFROM actor\nWHERE first_name LIKE \x27%" ++ s ++ "%\x27\n   OR last_name LIKE \x27%" ++ s ++ "%\x27\nUNION ALL\nSELECT \x27Customer\x27 as type, CONCAT(first_name, \x27 \x27, last_name) as name,\n       email, customer_id as id\nFROM customer\nWHERE first_name LIKE \x27%" ++ s ++ "%\x27\n   OR last_name LIKE \x27%" ++ s ++ "%\x27\nLIMIT 50"

def sakilaSearchTitle (s : String) : String :=
  "SELECT \x27Film\x27 as type, title as name, NULL as email, film_id as id\nFROM film\nWHERE title LIKE \x27%" ++ s ++ "%\x27\nLIMIT 50"

/-- The fall-through `return "SELECT 'No results' as message"`. -/
def noResultsStmt : String :=
  "SELECT \x27No results\x27 as message"

/-- `MultiDatabaseMCP._generate_search_query`: the kind tests mirror the
source's `search_type in ['name', 'all']` / `== 'email'` / `== 'title'`
chains; every unhandled kind falls through to the no-results statement. -/
def generate_search_query (db : DB) (search_term search_type : String) : String :=
  let s := escapeSquotes search_term
  match db with
  | .school_erp =>
      if search_type == "name" || search_type == "all" then schoolSearchNameAll s
      else if search_type == "email" then schoolSearchEmail s
      else noResultsStmt
  | .chinook =>
      if search_type == "name" || search_type == "all" then chinookSearchNameAll s
      else if search_type == "email" then chinookSearchEmail s
      else if search_type == "title" then chinookSearchTitle s
      else noResultsStmt
  | .sakila =>
      if search_type == "name" || search_type == "all" then sakilaSearchNameAll s
      else if search_type == "title" then sakilaSearchTitle s
      else noResultsStmt

/-- Outcome of `execute_sql` for a SELECT statement, as the unified search
consumes it: success carries the fetched rows (`row_count` is their number);
failure carries the error message. -/
inductive ExecOutcome where
  | rows (data : List Row)
  | failure (message : String)
deriving DecidableEq

/-- The execution collaborator: `run(source, statement) -> rows | error`. -/
structure RunEnv where
  run : DB → String → ExecOutcome

/-- One per-database entry of `results_by_database` (the `matches` dict key is
called `matchRows` here because `matches` is a Lean keyword). -/
structure SearchHits where
  matchRows : List Row
  count : Nat
deriving DecidableEq

/-- The return dict of `unified_search`. -/
structure SearchOutput where
  search_term : String
  search_type : String
  total_matches : Nat
  results_by_database : List (DB × SearchHits)
  databases_searched : List DB
deriving DecidableEq

/-- The per-database outcome of the `unified_search` loop body: a successful
execution with at least one row yields an entry (`matches` plus `count`),
anything else yields none. -/
def searchHitsFor (renv : RunEnv) (search_term search_type : String) (db : DB) :
    Option SearchHits :=
  match renv.run db (generate_search_query db search_term search_type) with
  | .rows data => if 0 < data.length then some ⟨data, data.length⟩ else none
  | .failure _ => none

/-- `MultiDatabaseMCP.unified_search`: per database in configuration order,
run the generated search statement; keep only successful executions with at
least one row; the total is the sum of the kept counts. -/
def unified_search (renv : RunEnv) (search_term search_type : String) : SearchOutput :=
  let results := DB.all.filterMap
    (fun db => (searchHitsFor renv search_term search_type db).map (fun h => (db, h)))
  { search_term := search_term
    search_type := search_type
    total_matches := (results.map (fun p => p.2.count)).sum
    results_by_database := results
    databases_searched := DB.all }

/-! ## Cross-database merge (`MultiDatabaseMCP._analyze_cross_db_results`) -/

/-- One per-database entry of the `results` dict built by
`handle_cross_database_query`: a successful execution carries its data rows
and `row_count`; a failed one carries no `data` key (`data := none`). -/
structure DBQueryResult where
  data : Option (List Row)
  row_count : Nat
deriving DecidableEq

/-- One entry of `analysis["summary"]`. -/
structure SummaryEntry where
  database : DB
  records_found : Nat
  description : String
deriving DecidableEq

/-- The `analysis` dict: `summary`, `totals` (insertion-ordered mapping) and
the always-empty `comparison`. -/
structure Analysis where
  summary : List SummaryEntry
  totals : List (String × ℚ)
  comparison : List String
deriving DecidableEq

/-- Mapping lookup on `totals`. -/
def getTotal (t : List (String × ℚ)) (k : String) : Option ℚ :=
  (t.find? (fun p => p.1 == k)).map (fun p => p.2)

/-- Dict assignment `totals[k] = x`: replace the binding in place, else
append. -/
def setTotal : List (String × ℚ) → String → ℚ → List (String × ℚ)
  | [], k, x => [(k, x)]
  | (k2, y) :: rest, k, x =>
      if k2 == k then (k, x) :: rest else (k2, y) :: setTotal rest k x

/-- The inner `for row in data` loop for one key: add `float(row[key])` for
every row holding a truthy value under the key. -/
def addRowsFor (k : String) : List Row → ℚ → Except String ℚ
  | [], acc => .ok acc
  | row :: rest, acc =>
      match rowGet row k with
      | some v =>
          if v.truthy then
            match floatOf v with
            | .ok x => addRowsFor k rest (acc + x)
            | .error e => .error e
          else addRowsFor k rest acc
      | none => addRowsFor k rest acc

/-- The `for key, value in first_row.items()` loop: for every numeric value
of the first row, initialize the key to its current total (0 when absent) and
accumulate over all rows of this source. -/
def accumFirstRow (data : List Row) :
    List (String × Value) → List (String × ℚ) → Except String (List (String × ℚ))
  | [], totals => .ok totals
  | (k, v) :: rest, totals =>
      if v.isNumeric then
        match addRowsFor k data ((getTotal totals k).getD 0) with
        | .ok x => accumFirstRow data rest (setTotal totals k x)
        | .error e => .error e
      else accumFirstRow data rest totals

/-- One iteration of the `for db_name, db_result in results.items()` loop:
entries without a non-empty `data` list are skipped entirely (no summary line,
no totals contribution). -/
def analyzeStep (acc : Analysis) (entry : DB × DBQueryResult) : Except String Analysis :=
  match entry.2.data with
  | some (first_row :: restRows) =>
      match accumFirstRow (first_row :: restRows) first_row acc.totals with
      | .ok t2 =>
          .ok { acc with
                totals := t2,
                summary := acc.summary ++
                  [⟨entry.1, entry.2.row_count, entry.1.description⟩] }
      | .error e => .error e
  | _ => .ok acc

/-- `MultiDatabaseMCP._analyze_cross_db_results`. -/
def analyze_cross_db_results (results : List (DB × DBQueryResult)) : Except String Analysis :=
  results.foldlM analyzeStep ⟨[], [], []⟩

/-- The numeric value a row exposes under `k`, 0 otherwise: the claimed
per-row contribution to `numeric_totals[k]`. -/
def rowContribution (k : String) (row : Row) : ℚ :=
  match rowGet row k with
  | some (.num x) => x
  | _ => 0

/-- Sum of the values found under `k` across every row of one result set. -/
def sourceSum (k : String) (data : List Row) : ℚ :=
  (data.map (rowContribution k)).sum

/-- Whether a per-database result has a first row exposing `k` as numeric. -/
def firstRowNumeric (k : String) (r : DBQueryResult) : Bool :=
  match r.data with
  | some (first_row :: _) =>
      match rowGet first_row k with
      | some v => v.isNumeric
      | none => false
  | _ => false

/-- The data rows of a per-database result (empty when it failed). -/
def dataOf (r : DBQueryResult) : List Row :=
  r.data.getD []

/-- The claimed value of `numeric_totals[k]`: the sum over every source whose
first row holds a numeric value under `k` of the values found under `k`
across every row of that source. -/
def claimTotal (k : String) (results : List (DB × DBQueryResult)) : ℚ :=
  (results.map (fun e => if firstRowNumeric k e.2 then sourceSum k (dataOf e.2) else 0)).sum

/-- The first row of a successful result has pairwise distinct keys — true of
every Python dict row. -/
def firstRowKeysNodup (r : DBQueryResult) : Bool :=
  match r.data with
  | some (r0 :: _) => decide (r0.map Prod.fst).Nodup
  | _ => true

/-- Every first row in the result dict has pairwise distinct keys. -/
def FirstRowsNodup (results : List (DB × DBQueryResult)) : Prop :=
  ∀ e ∈ results, firstRowKeysNodup e.2 = true

instance (results : List (DB × DBQueryResult)) : Decidable (FirstRowsNodup results) := by
  unfold FirstRowsNodup
  infer_instance

/-- Whether a (suffix of a) first row holds a numeric value under `k` (first
binding wins, like a dict lookup). -/
def entriesNumeric (k : String) (entries : List (String × Value)) : Bool :=
  match entries.find? (fun p => p.1 == k) with
  | some p => p.2.isNumeric
  | none => false

/-- A concrete cross-database result dict: two successful entity-count result
sets sharing the numeric field `count`, and one failed source. -/
def resultsC6 : List (DB × DBQueryResult) :=
  [(.school_erp, ⟨some [[("entity", .str "Students"), ("count", .num 5)],
                        [("entity", .str "Teachers"), ("count", .num 3)]], 2⟩),
   (.chinook, ⟨some [[("entity", .str "Artists"), ("count", .num 4)]], 1⟩),
   (.sakila, ⟨none, 0⟩)]

/-- A concrete execution collaborator: school_erp returns one row, chinook
fails, sakila returns no rows. -/
def runEnvC7 : RunEnv :=
  ⟨fun db _ =>
    match db with
    | .school_erp => .rows [[("name", .str "john doe")]]
    | .chinook => .failure "boom"
    | .sakila => .rows []⟩

/-! ## Schema cache (`DatabaseAgent.get_all_tables`) -/

/-- `DatabaseAgent.all_tables_cache`: one optional snapshot per database. -/
structure TablesCache where
  school_erp : Option (List String)
  chinook : Option (List String)
  sakila : Option (List String)
deriving DecidableEq

/-- Cache lookup `db_name in self.all_tables_cache`. -/
def TablesCache.get (c : TablesCache) : DB → Option (List String)
  | .school_erp => c.school_erp
  | .chinook => c.chinook
  | .sakila => c.sakila

/-- Cache store `self.all_tables_cache[db_name] = tables`. -/
def TablesCache.set (c : TablesCache) : DB → List String → TablesCache
  | .school_erp, ts => { c with school_erp := some ts }
  | .chinook, ts => { c with chinook := some ts }
  | .sakila, ts => { c with sakila := some ts }

/-- Outcome of the table-listing call through the execution collaborator:
either the raw `SHOW TABLES` names, or unavailability (no live connection, or
the cursor raised). -/
inductive FetchOutcome where
  | ok (raw : List String)
  | unavailable
deriving DecidableEq

/-- `DatabaseAgent.get_all_tables`, with the cache passed and returned
explicitly: a cached snapshot is returned as-is; a successful listing is
lowercased, cached and returned; an unavailable listing yields the empty list
and leaves the cache unchanged. -/
def get_all_tables (fetch : DB → FetchOutcome) (cache : TablesCache) (db : DB) :
    List String × TablesCache :=
  match cache.get db with
  | some ts => (ts, cache)
  | none =>
      match fetch db with
      | .ok raw =>
          let ts := raw.map pyLower
          (ts, cache.set db ts)
      | .unavailable => ([], cache)

/-! ## Helper lemmas -/

theorem DB.mem_all (db : DB) : db ∈ DB.all := by
  cases db <;> simp [DB.all]

theorem exists_get_eq_max (s : Scores) : ∃ db, s.get db = s.maxScore := by
  have h : s.maxScore = s.school_erp ∨ s.maxScore = s.chinook ∨ s.maxScore = s.sakila := by
    unfold Scores.maxScore
    simp only [Nat.max_def]
    split_ifs <;> simp
  rcases h with h | h | h
  · exact ⟨.school_erp, h.symm⟩
  · exact ⟨.chinook, h.symm⟩
  · exact ⟨.sakila, h.symm⟩

theorem mem_topDatabases (s : Scores) (db : DB) :
    db ∈ topDatabases s ↔ s.get db = s.maxScore := by
  simp [topDatabases, DB.mem_all db]

theorem detect_unresolved_case (env : Env) (q : String)
    (h0 : (finalScores env (pyLower q)).maxScore = 0) :
    detect_database env q =
      .unresolved "Could not determine database from question" clarifySuggestion
        (finalScores env (pyLower q)) := by
  simp only [detect_database]
  rw [if_pos h0]

theorem detect_ambiguous_case (env : Env) (q : String)
    (h0 : (finalScores env (pyLower q)).maxScore ≠ 0)
    (h1 : 1 < (topDatabases (finalScores env (pyLower q))).length) :
    detect_database env q =
      .ambiguous 50 (ambReasoning (topDatabases (finalScores env (pyLower q))))
        (ambSuggestion (topDatabases (finalScores env (pyLower q))))
        (finalScores env (pyLower q)) (topDatabases (finalScores env (pyLower q))) := by
  simp only [detect_database]
  rw [if_neg h0, if_pos h1]

theorem detect_resolved_case (env : Env) (q : String)
    (h0 : (finalScores env (pyLower q)).maxScore ≠ 0)
    (h1 : ¬ 1 < (topDatabases (finalScores env (pyLower q))).length) :
    detect_database env q =
      .resolved ((topDatabases (finalScores env (pyLower q))).headD .school_erp)
        (confFormula (finalScores env (pyLower q)).maxScore)
        (resReasoning ((finalMatched env (pyLower q)).get
          ((topDatabases (finalScores env (pyLower q))).headD .school_erp)))
        (finalScores env (pyLower q)) (finalMatched env (pyLower q)) := by
  simp only [detect_database]
  rw [if_neg h0, if_neg h1]

theorem topDatabases_eq_singleton (s : Scores)
    (h1 : ¬ 1 < (topDatabases s).length) :
    ∃ d, topDatabases s = [d] ∧ s.get d = s.maxScore := by
  obtain ⟨d, hd⟩ := exists_get_eq_max s
  have hmem : d ∈ topDatabases s := (mem_topDatabases s d).mpr hd
  have hpos : 0 < (topDatabases s).length := List.length_pos.mpr (List.ne_nil_of_mem hmem)
  have hlen : (topDatabases s).length = 1 := by omega
  obtain ⟨x, hx⟩ := List.length_eq_one.mp hlen
  refine ⟨x, hx, ?_⟩
  have : d = x := by
    rw [hx] at hmem
    simpa using hmem
  rw [← this]
  exact hd

theorem resolved_inversion (env : Env) (q : String) (db : DB) (c : ℚ) (r : String)
    (s : Scores) (mk : Matched)
    (h : detect_database env q = .resolved db c r s mk) :
    s = finalScores env (pyLower q) ∧ c = confFormula s.maxScore ∧
      s.get db = s.maxScore ∧ s.maxScore ≠ 0 := by
  by_cases h0 : (finalScores env (pyLower q)).maxScore = 0
  · rw [detect_unresolved_case env q h0] at h
    exact absurd h (by simp)
  by_cases h1 : 1 < (topDatabases (finalScores env (pyLower q))).length
  · rw [detect_ambiguous_case env q h0 h1] at h
    exact absurd h (by simp)
  rw [detect_resolved_case env q h0 h1] at h
  obtain ⟨hdb, hc, hr, hs, hmk⟩ := by
    simpa [DetectResult.resolved.injEq] using h.symm
  obtain ⟨d, hd, hget⟩ := topDatabases_eq_singleton (finalScores env (pyLower q)) h1
  subst hs
  refine ⟨rfl, hc, ?_, h0⟩
  rw [hdb, hd]
  exact hget

theorem confFormula_eq (m : ℕ) : confFormula m = (m : ℚ) / ((m : ℚ) + 1) * 100 := by
  have h1 : (0 : ℚ) < (m : ℚ) + 1 := by positivity
  have h2 : (m : ℚ) / ((m : ℚ) + 1) * 100 < 100 := by
    have : (m : ℚ) / ((m : ℚ) + 1) < 1 := by
      rw [div_lt_one h1]
      linarith
    nlinarith
  unfold confFormula ratMin
  rw [if_neg (by linarith)]

theorem confFormula_lt_100 (m : ℕ) : confFormula m < 100 := by
  rw [confFormula_eq]
  have h1 : (0 : ℚ) < (m : ℚ) + 1 := by positivity
  have : (m : ℚ) / ((m : ℚ) + 1) < 1 := by
    rw [div_lt_one h1]
    linarith
  nlinarith

theorem confFormula_strictMono (m1 m2 : ℕ) (h : m1 < m2) :
    confFormula m1 < confFormula m2 := by
  rw [confFormula_eq, confFormula_eq]
  have h1 : (0 : ℚ) < (m1 : ℚ) + 1 := by positivity
  have h2 : (0 : ℚ) < (m2 : ℚ) + 1 := by positivity
  have hc : (m1 : ℚ) < (m2 : ℚ) := by exact_mod_cast h
  have hdiv : (m1 : ℚ) / ((m1 : ℚ) + 1) < (m2 : ℚ) / ((m2 : ℚ) + 1) := by
    rw [div_lt_div_iff₀ h1 h2]
    nlinarith
  nlinarith

/-! ## Claim theorems: routing classifier -/

/-- C3: the classifier's phases are strictly ordered and short-circuiting:
when the keyword phase's maximum is nonzero, the table and column phases leave
the score vector unchanged; when the maximum after the table phase is nonzero,
the column phase leaves it unchanged; the table (resp. column) contribution is
applied exactly when the preceding maximum is 0. -/
theorem claim_C3 (env : Env) (q : String) :
    ((phase1Scores (pyLower q)).maxScore ≠ 0 →
        finalScores env (pyLower q) = phase1Scores (pyLower q))
    ∧ ((phase2Scores env (pyLower q)).maxScore ≠ 0 →
        finalScores env (pyLower q) = phase2Scores env (pyLower q))
    ∧ ((phase1Scores (pyLower q)).maxScore = 0 →
        phase2Scores env (pyLower q) =
          withTableScores env (pyLower q) (phase1Scores (pyLower q)))
    ∧ ((phase2Scores env (pyLower q)).maxScore = 0 →
        finalScores env (pyLower q) =
          withColumnScores env (pyLower q) (phase2Scores env (pyLower q))) := by
  refine ⟨fun h => ?_, fun h => ?_, fun h => ?_, fun h => ?_⟩
  · have h2 : phase2Scores env (pyLower q) = phase1Scores (pyLower q) := by
      unfold phase2Scores
      rw [if_neg h]
    unfold finalScores
    rw [h2, if_neg h]
  · unfold finalScores
    rw [if_neg h]
  · unfold phase2Scores
    rw [if_pos h]
  · unfold finalScores
    rw [if_pos h]

/-- C3 witness: on "student" the keyword phase already scores 1 for
school_erp, so the final scores equal the phase-1 scores. -/
theorem claim_C3_witness :
    finalScores envTriv (pyLower "student") = phase1Scores (pyLower "student") :=
  (claim_C3 envTriv "student").1 (by decide)

/-- C1: the outcome of `detect_database` is determined by the final maximum
score: maximum 0 gives Unresolved with the all-databases suggestion; a nonzero
maximum shared by two or more databases gives Ambiguous with confidence 50,
listing exactly the databases attaining the maximum; otherwise Resolved names
the unique top-scoring database. -/
theorem claim_C1 (env : Env) (q : String) :
    ((finalScores env (pyLower q)).maxScore = 0 →
        detect_database env q =
          .unresolved "Could not determine database from question" clarifySuggestion
            (finalScores env (pyLower q)))
    ∧ ((finalScores env (pyLower q)).maxScore ≠ 0 →
        2 ≤ (topDatabases (finalScores env (pyLower q))).length →
        detect_database env q =
          .ambiguous 50 (ambReasoning (topDatabases (finalScores env (pyLower q))))
            (ambSuggestion (topDatabases (finalScores env (pyLower q))))
            (finalScores env (pyLower q)) (topDatabases (finalScores env (pyLower q)))
        ∧ ∀ db, db ∈ topDatabases (finalScores env (pyLower q)) ↔
            (finalScores env (pyLower q)).get db = (finalScores env (pyLower q)).maxScore)
    ∧ ((finalScores env (pyLower q)).maxScore ≠ 0 →
        (topDatabases (finalScores env (pyLower q))).length < 2 →
        ∃ db, detect_database env q =
            .resolved db (confFormula (finalScores env (pyLower q)).maxScore)
              (resReasoning ((finalMatched env (pyLower q)).get db))
              (finalScores env (pyLower q)) (finalMatched env (pyLower q))
          ∧ (finalScores env (pyLower q)).get db = (finalScores env (pyLower q)).maxScore
          ∧ ∀ db2, (finalScores env (pyLower q)).get db2 =
              (finalScores env (pyLower q)).maxScore → db2 = db) := by
  refine ⟨detect_unresolved_case env q, fun h0 hlen => ?_, fun h0 hlen => ?_⟩
  · exact ⟨detect_ambiguous_case env q h0 (by omega),
      fun db => mem_topDatabases (finalScores env (pyLower q)) db⟩
  · have h1 : ¬ 1 < (topDatabases (finalScores env (pyLower q))).length := by omega
    obtain ⟨d, hd, hget⟩ := topDatabases_eq_singleton (finalScores env (pyLower q)) h1
    refine ⟨d, ?_, hget, ?_⟩
    · have := detect_resolved_case env q h0 h1
      rw [hd] at this
      simpa using this
    · intro db2 hdb2
      have hmem : db2 ∈ topDatabases (finalScores env (pyLower q)) :=
        (mem_topDatabases _ db2).mpr hdb2
      rw [hd] at hmem
      simpa using hmem

/-- C1 witness: on "zzz" every phase scores 0, so the outcome is Unresolved
with the suggestion enumerating all three databases. -/
theorem claim_C1_witness :
    detect_database envTriv "zzz" =
      .unresolved "Could not determine database from question" clarifySuggestion
        (finalScores envTriv (pyLower "zzz")) :=
  (claim_C1 envTriv "zzz").1 (by decide)

/-- C2: whenever `detect_database` resolves to a single database, the reported
confidence equals `min(100, 100 * s / (s + 1))` for that database's final
score `s`; this value is strictly increasing in the score and always strictly
below 100. -/
theorem claim_C2 (env : Env) (q : String) (db : DB) (c : ℚ) (r : String)
    (s : Scores) (mk : Matched)
    (h : detect_database env q = .resolved db c r s mk) :
    c = min 100 (100 * (s.get db : ℚ) / ((s.get db : ℚ) + 1))
    ∧ (∀ m1 m2 : ℕ, m1 < m2 → confFormula m1 < confFormula m2)
    ∧ (∀ m : ℕ, confFormula m < 100) := by
  obtain ⟨-, hc, hget, -⟩ := resolved_inversion env q db c r s mk h
  refine ⟨?_, confFormula_strictMono, confFormula_lt_100⟩
  rw [hc, ← hget, confFormula_eq]
  have h100 : (100 : ℚ) * (s.get db : ℚ) / ((s.get db : ℚ) + 1) =
      (s.get db : ℚ) / ((s.get db : ℚ) + 1) * 100 := by
    ring
  rw [h100, min_eq_right]
  have h1 : (0 : ℚ) < (s.get db : ℚ) + 1 := by positivity
  have : ((s.get db : ℚ)) / ((s.get db : ℚ) + 1) < 1 := by
    rw [div_lt_one h1]
    linarith
  nlinarith

/-- C2 witness: "student" resolves to school_erp with score 1 and the stated
confidence formula. -/
theorem claim_C2_witness :
    confFormula 1 =
      min 100 (100 * ((Scores.mk 1 0 0).get .school_erp : ℚ) /
        (((Scores.mk 1 0 0).get .school_erp : ℚ) + 1))
    ∧ (∀ m1 m2 : ℕ, m1 < m2 → confFormula m1 < confFormula m2)
    ∧ (∀ m : ℕ, confFormula m < 100) :=
  claim_C2 envTriv "student" .school_erp (confFormula 1)
    "Matched keywords/patterns: student" ⟨1, 0, 0⟩ ⟨["student"], [], []⟩ rfl

/-- C10: a Resolved outcome never reports confidence below the fixed 50 of an
ambiguous tie, and reports exactly 50 precisely when the winning score is 1. -/
theorem claim_C10 (env : Env) (q : String) (db : DB) (c : ℚ) (r : String)
    (s : Scores) (mk : Matched)
    (h : detect_database env q = .resolved db c r s mk) :
    50 ≤ c ∧ (c = 50 ↔ s.get db = 1) := by
  obtain ⟨-, hc, hget, hne⟩ := resolved_inversion env q db c r s mk h
  have hm1 : 1 ≤ s.maxScore := Nat.one_le_iff_ne_zero.mpr hne
  have hpos : (0 : ℚ) < (s.maxScore : ℚ) + 1 := by positivity
  have hcast : (1 : ℚ) ≤ (s.maxScore : ℚ) := by exact_mod_cast hm1
  rw [hc, confFormula_eq]
  constructor
  · rw [div_mul_eq_mul_div, le_div_iff₀ hpos]
    nlinarith
  · rw [div_mul_eq_mul_div, div_eq_iff (ne_of_gt hpos)]
    constructor
    · intro heq
      have h1 : (s.maxScore : ℚ) = 1 := by nlinarith
      have hm : s.maxScore = 1 := by exact_mod_cast h1
      rw [hget, hm]
    · intro heq
      have hm : s.maxScore = 1 := by
        rw [← hget, heq]
      rw [hm]
      norm_num

/-! ## Claim theorems: column-name phase (C4) -/

theorem foldl_count_if {α : Type} (p : α → Bool) (l : List α) (n : Nat) :
    l.foldl (fun a c => if p c then a + 1 else a) n = n + l.countP p := by
  induction l generalizing n with
  | nil => simp
  | cons c rest ih =>
    simp only [List.foldl_cons, List.countP_cons]
    by_cases h : p c
    · rw [if_pos h, ih]
      simp [h]
      omega
    · rw [if_neg h, ih]
      simp [h]

theorem foldl_nested_count (cols : String → List String) (p : String → Bool)
    (ts : List String) (n : Nat) :
    ts.foldl (fun acc t => (cols t).foldl (fun a c => if p c then a + 1 else a) acc) n
      = n + (ts.map (fun t => (cols t).countP p)).sum := by
  induction ts generalizing n with
  | nil => simp
  | cons t rest ih =>
    simp only [List.foldl_cons, List.map_cons, List.sum_cons]
    rw [foldl_count_if, ih]
    omega

/-- C4 counterexample: on a schema with the single column `store_id_backup`
and the question "store_backup", the code scores 1 (it removes the inner
`_id`), while the claimed trailing-suffix normalization scores 0. -/
theorem claim_C4_counterexample :
    search_in_columns_db envC4 "store_backup" .school_erp ≠
      search_in_columns_claimed envC4 "store_backup" .school_erp := by
  decide

/-- C4 (amended): in the column-name phase only the first 10 tables are
examined, and a column adds exactly 1 to its database's score when its
lowercased name with every occurrence of `_id` and then `_name` removed (not
only trailing suffixes) is longer than 3 characters and occurs in the
lowercased question. -/
theorem claim_C4_amended (env : Env) (ql : String) (db : DB) :
    search_in_columns_db env ql db = search_in_columns_spec env ql db := by
  unfold search_in_columns_db search_in_columns_spec
  by_cases h : env.connected db
  · rw [if_pos h, if_pos h]
    have hfold := foldl_nested_count (env.columns db) (fun c => columnHit ql c)
      ((env.tables db).take 10) 0
    simpa [columnHit] using hfold
  · rw [if_neg h, if_neg h]

/-! ## Claim theorems: template dispatcher (C5) -/

theorem school_catalog_select (ql : String) :
    school_erp_queries ql = (firstMatch schoolCatalog ql).getD sqlSchoolHelp := by
  unfold school_erp_queries schoolCatalog
  cases h1 : substrOf "how many students" ql <;>
    cases h2 : substrOf "class" ql <;>
    cases h3 : substrOf "section" ql <;>
    cases h4 : substrOf "list students" ql <;>
    cases h5 : substrOf "show students" ql <;>
    cases h6 : substrOf "teacher" ql <;>
    cases h7 : substrOf "fee" ql <;>
    cases h8 : substrOf "pending" ql <;>
    cases h9 : substrOf "unpaid" ql <;>
    simp [firstMatch, h1, h2, h3, h4, h5, h6, h7, h8, h9]

theorem chinook_catalog_select (ql : String) :
    chinook_queries ql = (firstMatch chinookCatalog ql).getD sqlChinookHelp := by
  unfold chinook_queries chinookCatalog
  cases h1 : substrOf "album" ql <;>
    cases h2 : substrOf "artist" ql <;>
    cases h3 : substrOf "track" ql <;>
    cases h4 : substrOf "song" ql <;>
    cases h5 : substrOf "customer" ql <;>
    cases h6 : substrOf "invoice" ql <;>
    cases h7 : substrOf "sale" ql <;>
    cases h8 : substrOf "playlist" ql <;>
    simp [firstMatch, h1, h2, h3, h4, h5, h6, h7, h8]

theorem sakila_catalog_select (ql : String) :
    sakila_queries ql = (firstMatch sakilaCatalog ql).getD sqlSakilaHelp := by
  unfold sakila_queries sakilaCatalog
  cases h1 : substrOf "film" ql <;>
    cases h2 : substrOf "movie" ql <;>
    cases h3 : substrOf "actor" ql <;>
    cases h4 : substrOf "rental" ql <;>
    cases h5 : substrOf "customer" ql <;>
    cases h6 : substrOf "category" ql <;>
    simp [firstMatch, h1, h2, h3, h4, h5, h6]

/-- C5: `natural_to_sql` is the deterministic first-match selection over the
database's fixed ordered guard catalog, evaluated on the lowercased question,
falling back to the database's fixed help statement when no guard matches
(never an error). -/
theorem claim_C5 (db : DB) (question : String) :
    natural_to_sql db question =
      (firstMatch (catalogOf db) (pyLower question)).getD (helpStatement db) := by
  cases db
  · exact school_catalog_select (pyLower question)
  · exact chinook_catalog_select (pyLower question)
  · exact sakila_catalog_select (pyLower question)

/-! ## Claim theorems: unified search (C7) and search compiler (C8) -/

theorem filterMap_count_sum (f : DB → Option SearchHits) (l : List DB) :
    ((l.filterMap (fun db => (f db).map (fun h => (db, h)))).map
        (fun p => p.2.count)).sum
      = (l.map (fun db => match f db with | some h => h.count | none => 0)).sum := by
  induction l with
  | nil => rfl
  | cons d rest ih =>
    rcases hf : f d with - | h <;> simp [List.filterMap_cons, hf, ih]

theorem searchHitsFor_eq_some (renv : RunEnv) (term ty : String) (db : DB)
    (hits : SearchHits) :
    searchHitsFor renv term ty db = some hits ↔
      renv.run db (generate_search_query db term ty) = .rows hits.matchRows
      ∧ hits.count = hits.matchRows.length ∧ 0 < hits.matchRows.length := by
  unfold searchHitsFor
  rcases hr : renv.run db (generate_search_query db term ty) with data | msg
  all_goals dsimp only
  · by_cases hlen : 0 < data.length
    · rw [if_pos hlen]
      constructor
      · intro hs
        obtain rfl : SearchHits.mk data data.length = hits := Option.some.inj hs
        exact ⟨rfl, rfl, hlen⟩
      · rintro ⟨hdata, hcnt, hpos⟩
        obtain rfl : data = hits.matchRows := ExecOutcome.rows.inj hdata
        cases hits
        simp_all
    · rw [if_neg hlen]
      constructor
      · intro hs
        cases hs
      · rintro ⟨hdata, hcnt, hpos⟩
        obtain rfl : data = hits.matchRows := ExecOutcome.rows.inj hdata
        exact absurd hpos hlen
  · constructor
    · intro hs
      cases hs
    · rintro ⟨hdata, -, -⟩
      cases hdata

/-- C7: a database appears in `results_by_database` exactly when its generated
search statement executed successfully and returned at least one row (the
entry then carries those rows and their count), and `total_matches` is the sum
of the included counts — equivalently, the sum over all configured databases
of the row count of exactly the successful non-empty executions. -/
theorem claim_C7 (renv : RunEnv) (term ty : String) :
    (∀ db hits,
        (db, hits) ∈ (unified_search renv term ty).results_by_database ↔
          renv.run db (generate_search_query db term ty) = .rows hits.matchRows
          ∧ hits.count = hits.matchRows.length ∧ 0 < hits.matchRows.length)
    ∧ (unified_search renv term ty).total_matches =
        ((unified_search renv term ty).results_by_database.map
          (fun p => p.2.count)).sum
    ∧ (unified_search renv term ty).total_matches =
        (DB.all.map (fun db =>
          match renv.run db (generate_search_query db term ty) with
          | .rows data => if 0 < data.length then data.length else 0
          | .failure _ => 0)).sum := by
  refine ⟨fun db hits => ?_, rfl, ?_⟩
  · rw [← searchHitsFor_eq_some]
    simp only [unified_search, List.mem_filterMap, Option.map_eq_some']
    constructor
    · rintro ⟨a, -, h, hs, heq⟩
      obtain ⟨rfl, rfl⟩ := Prod.mk.inj heq
      exact hs
    · intro hs
      exact ⟨db, DB.mem_all db, hits, hs, rfl⟩
  · show ((DB.all.filterMap _).map _).sum = _
    rw [filterMap_count_sum (searchHitsFor renv term ty) DB.all]
    refine congrArg List.sum (List.map_congr_left fun db _ => ?_)
    unfold searchHitsFor
    rcases hr : renv.run db (generate_search_query db term ty) with data | msg
    all_goals dsimp only
    · by_cases hlen : 0 < data.length
      · rw [if_pos hlen, if_pos hlen]
      · rw [if_neg hlen, if_neg hlen]

/-- C8 counterexample: for the kind "id" the generated statement is the same
constant no-result statement for every database — not a source-specific
lookup, and not the broadest match set that the kind "all" produces for the
same source. -/
theorem claim_C8_counterexample :
    generate_search_query .school_erp "john" "id" = noResultsStmt
    ∧ generate_search_query .chinook "john" "id" = noResultsStmt
    ∧ generate_search_query .sakila "john" "id" = noResultsStmt
    ∧ generate_search_query .school_erp "john" "id" ≠
        generate_search_query .school_erp "john" "all" := by
  refine ⟨rfl, rfl, rfl, ?_⟩
  decide

/-- C8 (amended): kind "all" degrades to the same statement as kind "name"
(the broadest supported lookup of each source), while kind "id" — and any
kind a source's catalog lacks (email for sakila, title for school_erp) —
yields the fixed constant no-result statement. -/
theorem claim_C8_amended (db : DB) (term : String) :
    generate_search_query db term "all" = generate_search_query db term "name"
    ∧ generate_search_query db term "id" = noResultsStmt
    ∧ generate_search_query .sakila term "email" = noResultsStmt
    ∧ generate_search_query .school_erp term "title" = noResultsStmt := by
  cases db <;> exact ⟨rfl, rfl, rfl, rfl⟩

/-! ## Claim theorems: schema cache (C9) -/

/-- C9: with a cached snapshot present, `get_all_tables` returns it unchanged
without consulting the collaborator (the result is the same for every fetch
behavior); when the cache is empty and the listing is unavailable, it returns
the empty list and leaves the cache unchanged, so a later call with a working
collaborator performs and caches the listing. -/
theorem claim_C9 :
    (∀ (fetch fetch2 : DB → FetchOutcome) (cache : TablesCache) (db : DB)
        (ts : List String),
        cache.get db = some ts →
        get_all_tables fetch cache db = (ts, cache)
        ∧ get_all_tables fetch cache db = get_all_tables fetch2 cache db)
    ∧ (∀ (fetch : DB → FetchOutcome) (cache : TablesCache) (db : DB),
        cache.get db = none → fetch db = .unavailable →
        get_all_tables fetch cache db = ([], cache))
    ∧ (∀ (fetch fetch2 : DB → FetchOutcome) (cache : TablesCache) (db : DB)
        (raw : List String),
        cache.get db = none → fetch db = .unavailable → fetch2 db = .ok raw →
        get_all_tables fetch2 (get_all_tables fetch cache db).2 db =
          (raw.map pyLower, cache.set db (raw.map pyLower))) := by
  have hcached : ∀ (fetch : DB → FetchOutcome) (cache : TablesCache) (db : DB)
      (ts : List String), cache.get db = some ts →
      get_all_tables fetch cache db = (ts, cache) := by
    intro fetch cache db ts h
    unfold get_all_tables
    rw [h]
  have hfail : ∀ (fetch : DB → FetchOutcome) (cache : TablesCache) (db : DB),
      cache.get db = none → fetch db = .unavailable →
      get_all_tables fetch cache db = ([], cache) := by
    intro fetch cache db h hf
    unfold get_all_tables
    rw [h, hf]
  refine ⟨fun fetch fetch2 cache db ts h => ⟨hcached fetch cache db ts h, ?_⟩,
    hfail, fun fetch fetch2 cache db raw h hf hf2 => ?_⟩
  · rw [hcached fetch cache db ts h, hcached fetch2 cache db ts h]
  · rw [hfail fetch cache db h hf]
    unfold get_all_tables
    rw [h, hf2]

/-- C9 witness: a cached school_erp snapshot is served unchanged under both a
failing and a succeeding collaborator; an uncached chinook listing that fails
yields the empty list and an unchanged cache. -/
theorem claim_C9_witness :
    get_all_tables (fun _ => .unavailable)
        (TablesCache.mk (some ["t0"]) none none) .school_erp =
      (["t0"], TablesCache.mk (some ["t0"]) none none)
    ∧ get_all_tables (fun _ => .unavailable)
        (TablesCache.mk (some ["t0"]) none none) .school_erp =
      get_all_tables (fun _ => .ok ["T1"])
        (TablesCache.mk (some ["t0"]) none none) .school_erp
    ∧ get_all_tables (fun _ => .unavailable)
        (TablesCache.mk (some ["t0"]) none none) .chinook =
      ([], TablesCache.mk (some ["t0"]) none none) :=
  ⟨(claim_C9.1 (fun _ => .unavailable) (fun _ => .ok ["T1"])
      (TablesCache.mk (some ["t0"]) none none) .school_erp ["t0"] rfl).1,
   (claim_C9.1 (fun _ => .unavailable) (fun _ => .ok ["T1"])
      (TablesCache.mk (some ["t0"]) none none) .school_erp ["t0"] rfl).2,
   claim_C9.2.1 (fun _ => .unavailable)
      (TablesCache.mk (some ["t0"]) none none) .chinook rfl rfl⟩

/-! ## Claim theorems: cross-database merge (C6) -/

theorem find_key_none {β : Type} (l : List (String × β)) (k : String)
    (h : k ∉ l.map Prod.fst) : l.find? (fun p => p.1 == k) = none := by
  induction l with
  | nil => rfl
  | cons p rest ih =>
    simp only [List.map_cons, List.mem_cons] at h
    push_neg at h
    obtain ⟨h1, h2⟩ := h
    rw [List.find?_cons_of_neg _ (by simp [Ne.symm h1]), ih h2]

theorem getTotal_setTotal_self (t : List (String × ℚ)) (k : String) (x : ℚ) :
    getTotal (setTotal t k x) k = some x := by
  induction t with
  | nil => simp [setTotal, getTotal, List.find?]
  | cons p rest ih =>
    rcases p with ⟨k2, y⟩
    by_cases h : k2 = k
    · simp only [setTotal, if_pos (show (k2 == k) = true by simp [h])]
      simp [getTotal, List.find?]
    · simp only [setTotal, if_neg (show ¬(k2 == k) = true by simp [h])]
      unfold getTotal
      simp only [List.find?, beq_eq_false_iff_ne.mpr h]
      exact ih

theorem getTotal_setTotal_ne (t : List (String × ℚ)) (k k2 : String) (x : ℚ)
    (hne : k2 ≠ k) : getTotal (setTotal t k x) k2 = getTotal t k2 := by
  have hkk2 : (k == k2) = false := beq_eq_false_iff_ne.mpr (Ne.symm hne)
  induction t with
  | nil => simp [setTotal, getTotal, List.find?, hkk2]
  | cons p rest ih =>
    rcases p with ⟨k3, y⟩
    by_cases h : k3 = k
    · simp only [setTotal, if_pos (show (k3 == k) = true by simp [h])]
      unfold getTotal
      rw [h]
      simp [List.find?, hkk2]
    · simp only [setTotal, if_neg (show ¬(k3 == k) = true by simp [h])]
      by_cases h2 : k3 = k2
      · unfold getTotal
        simp [List.find?, h2]
      · unfold getTotal
        simp only [List.find?, beq_eq_false_iff_ne.mpr h2]
        exact ih

theorem entriesNumeric_cons (k k0 : String) (v0 : Value) (rest : List (String × Value)) :
    entriesNumeric k ((k0, v0) :: rest) =
      if k0 == k then v0.isNumeric else entriesNumeric k rest := by
  by_cases h : k0 = k
  · have hb : (k0 == k) = true := by simp [h]
    simp [entriesNumeric, List.find?, hb]
  · have hb : (k0 == k) = false := by simp [h]
    simp [entriesNumeric, List.find?, hb]

theorem sourceSum_cons (k : String) (row : Row) (rest : List Row) :
    sourceSum k (row :: rest) = rowContribution k row + sourceSum k rest := by
  simp [sourceSum]

theorem addRowsFor_ok (k : String) (rows : List Row) :
    ∀ (acc x : ℚ), addRowsFor k rows acc = .ok x → x = acc + sourceSum k rows := by
  induction rows with
  | nil =>
    intro acc x h
    simp only [addRowsFor] at h
    obtain rfl : acc = x := Except.ok.inj h
    simp [sourceSum]
  | cons row rest ih =>
    intro acc x h
    simp only [addRowsFor] at h
    rcases hv : rowGet row k with - | v
    · rw [hv] at h
      rw [ih acc x h, sourceSum_cons]
      simp [rowContribution, hv]
    · rw [hv] at h
      dsimp only at h
      by_cases htr : v.truthy
      · rw [if_pos htr] at h
        rcases v with x0 | s0 | -
        · dsimp only [floatOf] at h
          rw [ih (acc + x0) x h, sourceSum_cons]
          simp [rowContribution, hv]
          ring
        · dsimp only [floatOf] at h
          cases h
        · simp [Value.truthy] at htr
      · rw [if_neg htr] at h
        rw [ih acc x h, sourceSum_cons]
        rcases v with x0 | s0 | -
        · have hx0 : x0 = 0 := by simpa [Value.truthy] using htr
          simp [rowContribution, hv, hx0]
        · simp [rowContribution, hv]
        · simp [rowContribution, hv]

theorem accumFirstRow_ok (data : List Row) (k : String) :
    ∀ (entries : List (String × Value)) (totals t2 : List (String × ℚ)),
    (entries.map Prod.fst).Nodup →
    accumFirstRow data entries totals = .ok t2 →
    (getTotal t2 k).getD 0 =
      (getTotal totals k).getD 0 +
        (if entriesNumeric k entries then sourceSum k data else 0) := by
  intro entries
  induction entries with
  | nil =>
    intro totals t2 hnd h
    simp only [accumFirstRow] at h
    obtain rfl : totals = t2 := Except.ok.inj h
    simp [entriesNumeric]
  | cons e rest ih =>
    intro totals t2 hnd h
    rcases e with ⟨k0, v0⟩
    rw [List.map_cons, List.nodup_cons] at hnd
    obtain ⟨hk0, hnd2⟩ := hnd
    simp only [accumFirstRow] at h
    by_cases hnum : v0.isNumeric
    · rw [if_pos hnum] at h
      rcases hadd : addRowsFor k0 data ((getTotal totals k0).getD 0) with msg | x
      · rw [hadd] at h
        cases h
      · rw [hadd] at h
        dsimp only at h
        have hx := addRowsFor_ok k0 data _ x hadd
        have hrec := ih (setTotal totals k0 x) t2 hnd2 h
        by_cases hk : k = k0
        · subst hk
          have hfind : rest.find? (fun p => p.1 == k) = none := find_key_none rest k hk0
          rw [hrec, getTotal_setTotal_self, entriesNumeric_cons]
          have hrestNum : entriesNumeric k rest = false := by
            simp [entriesNumeric, hfind]
          simp [hrestNum, hnum, hx]
        · have hbeq : (k0 == k) = false := beq_eq_false_iff_ne.mpr (Ne.symm hk)
          rw [hrec, getTotal_setTotal_ne totals k0 k x hk, entriesNumeric_cons]
          simp [hbeq]
    · rw [if_neg hnum] at h
      have hrec := ih totals t2 hnd2 h
      rw [hrec, entriesNumeric_cons]
      by_cases hk : k = k0
      · subst hk
        have hfind : rest.find? (fun p => p.1 == k) = none := find_key_none rest k hk0
        have hrestNum : entriesNumeric k rest = false := by
          simp [entriesNumeric, hfind]
        have hnum2 : v0.isNumeric = false := by
          simpa using hnum
        simp [hrestNum, hnum2]
      · have hbeq : (k0 == k) = false := beq_eq_false_iff_ne.mpr (Ne.symm hk)
        simp [hbeq]

theorem claimTotal_cons (k : String) (e : DB × DBQueryResult)
    (rest : List (DB × DBQueryResult)) :
    claimTotal k (e :: rest) =
      (if firstRowNumeric k e.2 then sourceSum k (dataOf e.2) else 0) + claimTotal k rest := by
  simp [claimTotal]

theorem firstRowNumeric_eq (k : String) (r : DBQueryResult) (r0 : Row) (rs : List Row)
    (hdata : r.data = some (r0 :: rs)) : firstRowNumeric k r = entriesNumeric k r0 := by
  unfold firstRowNumeric entriesNumeric rowGet
  rw [hdata]
  rcases hf : r0.find? (fun p => p.1 == k) with - | p <;> simp [hf]

theorem analyze_fold_ok (results : List (DB × DBQueryResult)) :
    ∀ (acc a : Analysis),
    (∀ e ∈ results, firstRowKeysNodup e.2 = true) →
    results.foldlM analyzeStep acc = .ok a →
    ∀ k, (getTotal a.totals k).getD 0 =
      (getTotal acc.totals k).getD 0 + claimTotal k results := by
  induction results with
  | nil =>
    intro acc a hw h k
    rw [List.foldlM_nil] at h
    obtain rfl : acc = a := Except.ok.inj h
    simp [claimTotal]
  | cons e rest ih =>
    intro acc a hw h k
    rw [List.foldlM_cons] at h
    rcases e with ⟨db, r⟩
    rcases hdata : r.data with - | rows
    · have hstep : analyzeStep acc (db, r) = .ok acc := by
        unfold analyzeStep
        rw [hdata]
      rw [hstep] at h
      have h2 : rest.foldlM analyzeStep acc = .ok a := h
      have hrec := ih acc a (fun e2 he2 => hw e2 (List.mem_cons_of_mem _ he2)) h2 k
      have hfr : firstRowNumeric k r = false := by
        unfold firstRowNumeric
        rw [hdata]
      rw [hrec, claimTotal_cons]
      simp [hfr]
    · rcases rows with - | ⟨r0, rs⟩
      · have hstep : analyzeStep acc (db, r) = .ok acc := by
          unfold analyzeStep
          rw [hdata]
        rw [hstep] at h
        have h2 : rest.foldlM analyzeStep acc = .ok a := h
        have hrec := ih acc a (fun e2 he2 => hw e2 (List.mem_cons_of_mem _ he2)) h2 k
        have hfr : firstRowNumeric k r = false := by
          unfold firstRowNumeric
          rw [hdata]
        rw [hrec, claimTotal_cons]
        simp [hfr]
      · have hnd : (r0.map Prod.fst).Nodup := by
          have hw0 := hw (db, r) (List.mem_cons_self _ _)
          unfold firstRowKeysNodup at hw0
          rw [hdata] at hw0
          exact of_decide_eq_true hw0
        rcases hacc : accumFirstRow (r0 :: rs) r0 acc.totals with msg | t2
        · have hstep : analyzeStep acc (db, r) = .error msg := by
            unfold analyzeStep
            rw [hdata]
            dsimp only
            rw [hacc]
          rw [hstep] at h
          have h2 : (Except.error msg : Except String Analysis) = .ok a := h
          cases h2
        · have hstep : analyzeStep acc (db, r) =
              .ok { acc with
                    totals := t2,
                    summary := acc.summary ++ [⟨db, r.row_count, db.description⟩] } := by
            unfold analyzeStep
            rw [hdata]
            dsimp only
            rw [hacc]
          rw [hstep] at h
          have h2 : rest.foldlM analyzeStep
              { acc with
                totals := t2,
                summary := acc.summary ++ [⟨db, r.row_count, db.description⟩] } = .ok a := h
          have hrec := ih _ a (fun e2 he2 => hw e2 (List.mem_cons_of_mem _ he2)) h2 k
          have hacc2 := accumFirstRow_ok (r0 :: rs) k r0 acc.totals t2 hnd hacc
          have hfr : firstRowNumeric k r = entriesNumeric k r0 :=
            firstRowNumeric_eq k r r0 rs hdata
          rw [hrec]
          dsimp only at hacc2 ⊢
          rw [hacc2, claimTotal_cons]
          have hdataOf : dataOf r = r0 :: rs := by
            simp [dataOf, hdata]
          rw [hdataOf]
          dsimp only
          rw [hfr]
          ring

/-- C6: whenever the cross-database merge completes, `numeric_totals[k]`
equals the sum, over every source whose first returned row holds a numeric
value under `k`, of the values found under `k` across every row of that
source's result set; sources whose first row does not expose `k` as numeric
contribute nothing. -/
theorem claim_C6 (results : List (DB × DBQueryResult)) (a : Analysis)
    (hw : FirstRowsNodup results)
    (h : analyze_cross_db_results results = .ok a) (k : String) :
    (getTotal a.totals k).getD 0 = claimTotal k results := by
  have hfold := analyze_fold_ok results ⟨[], [], []⟩ a hw h k
  simpa [getTotal] using hfold

/-- C6 witness: two successful entity-count result sets sharing the numeric
field `count` (rows 5 and 3, and row 4) and one failed source merge into
`count = 12`, the claimed double sum. -/
theorem claim_C6_witness :
    (getTotal (Analysis.mk
        [⟨.school_erp, 2, DB.description .school_erp⟩,
         ⟨.chinook, 1, DB.description .chinook⟩]
        [("count", 12)] []).totals "count").getD 0 = claimTotal "count" resultsC6 :=
  claim_C6 resultsC6
    (Analysis.mk
      [⟨.school_erp, 2, DB.description .school_erp⟩,
       ⟨.chinook, 1, DB.description .chinook⟩]
      [("count", 12)] [])
    (by decide) (by with_unfolding_all rfl) "count"

/-- C10 witness: "student" resolves with score 1 and confidence exactly 50. -/
theorem claim_C10_witness :
    50 ≤ confFormula 1 ∧ (confFormula 1 = 50 ↔ (Scores.mk 1 0 0).get .school_erp = 1) :=
  claim_C10 envTriv "student" .school_erp (confFormula 1)
    "Matched keywords/patterns: student" ⟨1, 0, 0⟩ ⟨["student"], [], []⟩ rfl

/-- C7 witness: under a collaborator where school_erp returns one row, chinook
fails and sakila returns none, the reported total equals the sum of the
included per-database counts. -/
theorem claim_C7_witness :
    (unified_search runEnvC7 "john" "email").total_matches =
      (DB.all.map (fun db =>
        match runEnvC7.run db (generate_search_query db "john" "email") with
        | .rows data => if 0 < data.length then data.length else 0
        | .failure _ => 0)).sum :=
  (claim_C7 runEnvC7 "john" "email").2.2
